import Mathlib

/-!
# Verification of the prompt-processing pipeline of `src/main.py`

Shallow embedding of the FastAPI application in `src/main.py`
(aliraxa5/fastapi-gpt3-csv-processor).  The remote LLM providers are
modelled as oracles: a function from the exact request payload the code
builds to the outcome the remote call produces (a successful extraction,
or the stringified exception that the surrounding `try` would catch, or
for Claude the parsed JSON response body).  Everything else — payload
construction, the per-row `try`/`except` handling, upload validation,
the pandas CSV round-trip — is translated directly from the source.
-/

set_option autoImplicit false

namespace Main

/-- `SYSTEM_PROMPT` constant, src/main.py line 27. -/
def SYSTEM_PROMPT : String := "Write an essay for high school students, fully humanized."

/-- `WORD_LIMIT_TOKENS` constant, src/main.py line 30. -/
def WORD_LIMIT_TOKENS : Nat := 500

/-- One entry of the chat-style `messages` list: a dict with `role` and
`content` keys. -/
structure ChatMessage where
  role : String
  content : String
deriving Repr, DecidableEq

/-- The keyword arguments the code passes to `openai.ChatCompletion.create`
(src/main.py lines 42-49 and 102-109). -/
structure OpenAIRequest where
  model : String
  messages : List ChatMessage
  max_tokens : Nat
deriving Repr, DecidableEq

/-- Request construction for the OpenAI provider, identical at both call
sites (single-prompt, lines 42-49, and batch, lines 102-109). -/
def openaiPayload (prompt : String) : OpenAIRequest :=
  ⟨"gpt-3.5-turbo", [⟨"system", SYSTEM_PROMPT⟩, ⟨"user", prompt⟩], WORD_LIMIT_TOKENS⟩

/-- The JSON payload the code posts to the Claude messages endpoint
(src/main.py lines 66-73 and 144-151). -/
structure ClaudePayload where
  model : String
  messages : List ChatMessage
  max_tokens : Nat
deriving Repr, DecidableEq

/-- Payload construction for the Claude provider, identical at both call
sites (single-prompt, lines 66-73, and batch, lines 144-151). -/
def claudePayload (prompt : String) : ClaudePayload :=
  ⟨"claude-3.5", [⟨"system", SYSTEM_PROMPT⟩, ⟨"user", prompt⟩], WORD_LIMIT_TOKENS⟩

/-- The parsed Claude response body (`response.json()`), as far as the code
inspects it: `error` is `some m` when `"error" in response_data` holds and
the error object carries message `m`; `content` is the value of the
`"content"` key when present.  When `content` is absent the lookup
`response_data["content"]` raises `KeyError("content")`, whose `str` is
`'content'` — modelled explicitly in the handlers below. -/
structure ClaudeBody where
  error : Option String
  content : Option String
deriving Repr, DecidableEq

/-- Outcome of one `requests.post` + `response.json()` round trip for the
Claude provider: either some exception was raised (transport failure, JSON
decode failure, …) with `str(e)` recorded, or a parsed body was obtained. -/
inductive ClaudeResult where
  | exn : String → ClaudeResult
  | body : ClaudeBody → ClaudeResult
deriving Repr, DecidableEq

/-- Outcome of one `openai.ChatCompletion.create` call followed by the
extraction `response["choices"][0]["message"]["content"]`:
`Except.ok text` is a successful extraction, `Except.error m` is any
raised exception with `str(e) = m`. -/
abbrev OpenAICall := OpenAIRequest → Except String String

/-- Claude oracle: the remote call outcome for each payload. -/
abbrev ClaudeCall := ClaudePayload → ClaudeResult

/-- Pydantic request body `PromptRequest` (src/main.py lines 23-24). -/
structure PromptRequest where
  prompt : String
deriving Repr, DecidableEq

/-- Result of a single-prompt endpoint: either the JSON body
`{"prompt": ..., "response": ...}` or an `HTTPException(status, detail)`. -/
inductive SingleResponse where
  | ok : String → String → SingleResponse
  | httpError : Nat → String → SingleResponse
deriving Repr, DecidableEq

/-- `process_openai_prompt` (src/main.py lines 38-53): one provider call
inside `try`; any exception is logged and replaced by a generic 500. -/
def process_openai_prompt (call : OpenAICall) (request : PromptRequest) : SingleResponse :=
  match call (openaiPayload request.prompt) with
  | .ok text => .ok request.prompt text
  | .error _ => .httpError 500 "Error generating response from OpenAI"

/-- `process_claude_prompt` (src/main.py lines 56-83).  Note that the
`HTTPException(500, response_data["error"]["message"])` raised on line 78
sits inside the `try` block, so the `except Exception` handler on line 81
catches it and raises the generic message instead; the same happens to the
`KeyError` from a body with no `"content"` key. -/
def process_claude_prompt (call : ClaudeCall) (request : PromptRequest) : SingleResponse :=
  match call (claudePayload request.prompt) with
  | .exn _ => .httpError 500 "Error generating response from Claude"
  | .body b =>
    match b.error with
    | some _ => .httpError 500 "Error generating response from Claude"
    | none =>
      match b.content with
      | some c => .ok request.prompt c
      | none => .httpError 500 "Error generating response from Claude"

/-- The slice of a parsed `pandas.DataFrame` the batch endpoints consult:
its column labels and the values of the `prompt` column in row order
(the latter meaningful only when `"prompt" ∈ columns`). -/
structure DataFrame where
  columns : List String
  promptValues : List String
deriving Repr, DecidableEq

/-- An uploaded file as the handlers see it: the declared content type and
what `pd.read_csv(file.file)` yields on its bytes — `none` when parsing
raises, `some df` otherwise. -/
structure UploadFile where
  content_type : String
  parsed : Option DataFrame
deriving Repr, DecidableEq

/-- Result of the shared upload-validation prefix of both batch endpoints. -/
inductive UploadCheck where
  | ok : DataFrame → UploadCheck
  | httpError : Nat → String → UploadCheck
deriving Repr, DecidableEq

/-- Upload validation, identical in both batch endpoints (src/main.py
lines 89-97 and 125-133): reject a non-`text/csv` content type with a 400;
then `try: read_csv; check column except Exception: 400 generic`.  The
`HTTPException(400, "Missing 'prompt' column …")` of lines 95/131 is
raised inside the `try`, so the `except Exception` on lines 96/132 catches
it and the client receives the generic parse-error detail instead. -/
def readUpload (file : UploadFile) : UploadCheck :=
  if file.content_type ≠ "text/csv" then
    .httpError 400 "Invalid file format. Please upload a CSV file."
  else
    match file.parsed with
    | none => .httpError 400 "Error reading the CSV file."
    | some df =>
      if "prompt" ∈ df.columns then .ok df
      else .httpError 400 "Error reading the CSV file."

/-- One row of the output table: the dict
`{"prompt": prompt, "response": generated_text}` appended on lines 113/161. -/
structure ResultRow where
  prompt : String
  response : String
deriving Repr, DecidableEq

/-- Body of one iteration of the OpenAI batch loop (src/main.py
lines 100-113): the provider call inside `try`, any exception rendered as
`f"Error generating response: {str(e)}"`. -/
def openaiBatchCell (call : OpenAICall) (prompt : String) : String :=
  match call (openaiPayload prompt) with
  | .ok text => text
  | .error e => "Error generating response: " ++ e

/-- Body of one iteration of the Claude batch loop (src/main.py
lines 136-161): an `"error"` key in the body renders the provider message,
a missing `"content"` key raises `KeyError("content")` whose `str(e)` is
`'content'`, and any other exception renders `str(e)`. -/
def claudeBatchCell (call : ClaudeCall) (prompt : String) : String :=
  match call (claudePayload prompt) with
  | .exn e => "Error generating response: " ++ e
  | .body b =>
    match b.error with
    | some m => "Error generating response: " ++ m
    | none =>
      match b.content with
      | some c => c
      | none => "Error generating response: \x27content\x27"

/-- The OpenAI batch loop over `df["prompt"]` (src/main.py lines 99-113):
one appended row per prompt, in input order. -/
def processAllOpenAI (call : OpenAICall) (prompts : List String) : List ResultRow :=
  prompts.map fun p => ⟨p, openaiBatchCell call p⟩

/-- The Claude batch loop over `df["prompt"]` (src/main.py lines 135-161). -/
def processAllClaude (call : ClaudeCall) (prompts : List String) : List ResultRow :=
  prompts.map fun p => ⟨p, claudeBatchCell call p⟩

/-- `csv.QUOTE_MINIMAL` trigger used by `DataFrame.to_csv`: a field is
quoted iff it contains the delimiter, the quote character, or a line
terminator character. -/
def needsQuoting (s : String) : Bool :=
  s.data.any fun c => c == ',' || c == '\"' || c == '\n' || c == '\r'

/-- Quote-doubling applied inside a quoted CSV field. -/
def escapeQuotes (s : String) : String :=
  ⟨(s.data.map fun c => if c == '\"' then ['\"', '\"'] else [c]).flatten⟩

/-- One CSV field as the `csv` writer underlying `to_csv` emits it with
the default `QUOTE_MINIMAL` policy. -/
def csvField (s : String) : String :=
  if needsQuoting s then "\"" ++ escapeQuotes s ++ "\"" else s

/-- One CSV record for a result row: both fields, comma-separated,
newline-terminated. -/
def renderRow (r : ResultRow) : String :=
  csvField r.prompt ++ "," ++ csvField r.response ++ "\n"

/-- The data records of the output file, in table order. -/
def renderRows : List ResultRow → String
  | [] => ""
  | r :: rs => renderRow r ++ renderRows rs

/-- `pd.DataFrame(responses).to_csv(output_file, index=False)`
(src/main.py lines 116-117 and 164-165): for a non-empty `responses` list
the frame has columns `prompt,response` in dict-key order, so the file is
that header line followed by one record per row; for an empty `responses`
list `pd.DataFrame([])` has no columns at all and `to_csv` writes a single
empty header line. -/
def renderOutput (table : List ResultRow) : String :=
  match table with
  | [] => "\n"
  | _ :: _ => "prompt,response\n" ++ renderRows table

/-- Result of a batch endpoint: a `FileResponse` (filename and the bytes
of the written file) or an `HTTPException`. -/
inductive BatchResponse where
  | fileResponse : String → String → BatchResponse
  | httpError : Nat → String → BatchResponse
deriving Repr, DecidableEq

/-- `process_openai_csv` (src/main.py lines 86-119): validation, the batch
loop, and the CSV file returned as a `FileResponse`. -/
def process_openai_csv (call : OpenAICall) (file : UploadFile) : BatchResponse :=
  match readUpload file with
  | .httpError code detail => .httpError code detail
  | .ok df =>
      .fileResponse "processed_openai.csv" (renderOutput (processAllOpenAI call df.promptValues))

/-- `process_claude_csv` (src/main.py lines 122-167). -/
def process_claude_csv (call : ClaudeCall) (file : UploadFile) : BatchResponse :=
  match readUpload file with
  | .httpError code detail => .httpError code detail
  | .ok df =>
      .fileResponse "processed_claude.csv" (renderOutput (processAllClaude call df.promptValues))

/-- The output rendering the specification describes for C8, written from
the spec words: header `prompt,response`, one record per `ResultRow`,
"values as plain text" with no escaping, for every table. -/
def specPlainRows : List ResultRow → String
  | [] => ""
  | r :: rs => r.prompt ++ "," ++ r.response ++ "\n" ++ specPlainRows rs

/-- Spec-side rendering for C8 (see `specPlainRows`). -/
def specPlainOutput (table : List ResultRow) : String :=
  "prompt,response\n" ++ specPlainRows table

/-! ## Concrete instances used to exercise the theorems -/

/-- A provider stub whose OpenAI call always succeeds. -/
def anyOpenAICall : OpenAICall := fun _ => .ok "ok"

/-- A provider stub whose Claude call always yields a well-formed body. -/
def anyClaudeCall : ClaudeCall := fun _ => .body ⟨none, some "ok"⟩

/-- An OpenAI stub that fails on prompt `A` with `timeout` and succeeds
with `ok` elsewhere. -/
def failAOpenAICall : OpenAICall := fun r =>
  if r = openaiPayload "A" then .error "timeout" else .ok "ok"

/-- A Claude stub that raises on prompt `A` with `timeout` and returns a
body with content `ok` elsewhere. -/
def failAClaudeCall : ClaudeCall := fun r =>
  if r = claudePayload "A" then .exn "timeout" else .body ⟨none, some "ok"⟩

/-- An OpenAI stub that always raises `connection reset`. -/
def raiseOpenAICall : OpenAICall := fun _ => .error "connection reset"

/-- A Claude stub that always raises `connection reset`. -/
def raiseClaudeCall : ClaudeCall := fun _ => .exn "connection reset"

/-- A Claude stub whose response body always carries an error object with
message `invalid api key`. -/
def errBodyClaudeCall : ClaudeCall := fun _ => .body ⟨some "invalid api key", none⟩

/-- A Claude stub whose response body lacks both the `error` and the
`content` keys. -/
def noContentClaudeCall : ClaudeCall := fun _ => .body ⟨none, none⟩

/-- A valid upload: `text/csv` content type, parseable body, a `prompt`
column with two rows. -/
def okFile : UploadFile := ⟨"text/csv", some ⟨["prompt"], ["A", "B"]⟩⟩

/-- An upload with a wrong declared content type. -/
def badTypeFile : UploadFile := ⟨"application/json", some ⟨["prompt"], ["A"]⟩⟩

/-- A well-typed, parseable upload without a `prompt` column. -/
def missingColFile : UploadFile := ⟨"text/csv", some ⟨["question"], []⟩⟩

/-- A well-typed upload whose bytes `pd.read_csv` cannot parse. -/
def unparseableFile : UploadFile := ⟨"text/csv", none⟩

/-! ## Theorems -/

/-- C1: for every uploaded batch of N prompts, the table produced by the
batch endpoints has exactly N rows, and projecting each row to its prompt
gives back the input list itself — one row per input prompt, in input
order, duplicates preserved, none dropped — for both providers and every
provider behaviour. -/
theorem batch_one_row_per_prompt_in_order (ocall : OpenAICall) (ccall : ClaudeCall)
    (prompts : List String) :
    (processAllOpenAI ocall prompts).length = prompts.length ∧
    (processAllOpenAI ocall prompts).map ResultRow.prompt = prompts ∧
    (processAllClaude ccall prompts).length = prompts.length ∧
    (processAllClaude ccall prompts).map ResultRow.prompt = prompts := by
  refine ⟨by simp [processAllOpenAI], ?_, by simp [processAllClaude], ?_⟩
  · unfold processAllOpenAI
    rw [List.map_map]
    exact List.map_id prompts
  · unfold processAllClaude
    rw [List.map_map]
    exact List.map_id prompts

/-- C2: the row recorded at every index `i` of a batch is exactly the pair
of that index's prompt and the cell computed from that prompt's own
provider call — so no index's outcome depends on any other index, and a
failure at index `i` leaves every other row (and the presence of rows
`i+1..n`) unchanged, for both providers. -/
theorem batch_rowwise_isolation (ocall : OpenAICall) (ccall : ClaudeCall)
    (prompts : List String) (i : Nat) :
    (processAllOpenAI ocall prompts)[i]? =
      (prompts[i]?).map (fun p => (⟨p, openaiBatchCell ocall p⟩ : ResultRow)) ∧
    (processAllClaude ccall prompts)[i]? =
      (prompts[i]?).map (fun p => (⟨p, claudeBatchCell ccall p⟩ : ResultRow)) := by
  constructor <;>
    simp [processAllOpenAI, processAllClaude]

/-- C6: every provider call — both providers; the single-prompt and batch
handlers build their payloads with these same constructors — sends a
message list of exactly two entries, a system-role message carrying
`SYSTEM_PROMPT` and a user-role message carrying the prompt, with the same
constant `max_tokens` bound of 500; the empty prompt is passed through
unmodified as the user message content. -/
theorem provider_payload_two_messages (p : String) :
    (openaiPayload p).messages = [⟨"system", SYSTEM_PROMPT⟩, ⟨"user", p⟩] ∧
    (claudePayload p).messages = [⟨"system", SYSTEM_PROMPT⟩, ⟨"user", p⟩] ∧
    (openaiPayload p).messages.length = 2 ∧
    (claudePayload p).messages.length = 2 ∧
    (openaiPayload p).max_tokens = 500 ∧
    (claudePayload p).max_tokens = 500 ∧
    ((openaiPayload "").messages.map ChatMessage.content) = [SYSTEM_PROMPT, ""] ∧
    ((claudePayload "").messages.map ChatMessage.content) = [SYSTEM_PROMPT, ""] :=
  ⟨rfl, rfl, rfl, rfl, rfl, rfl, rfl, rfl⟩

/-- C3: once an upload passes validation, the batch endpoints return the
`FileResponse` with the rendered table and never an `HTTPException`,
whatever the provider oracles do — in particular when a call raises, or
when a Claude body carries an error object; each such failure is rendered
as a text cell of that prompt's row instead. -/
theorem batch_failure_never_500 (ocall : OpenAICall) (cc1 cc2 : ClaudeCall)
    (file : UploadFile) (df : DataFrame) (p m em : String) (co : Option String)
    (h : readUpload file = .ok df)
    (ho : ocall (openaiPayload p) = .error m)
    (h1 : cc1 (claudePayload p) = .exn m)
    (h2 : cc2 (claudePayload p) = .body ⟨some em, co⟩) :
    process_openai_csv ocall file =
      .fileResponse "processed_openai.csv" (renderOutput (processAllOpenAI ocall df.promptValues)) ∧
    process_claude_csv cc1 file =
      .fileResponse "processed_claude.csv" (renderOutput (processAllClaude cc1 df.promptValues)) ∧
    (∀ code detail, process_openai_csv ocall file ≠ .httpError code detail) ∧
    (∀ code detail, process_claude_csv cc1 file ≠ .httpError code detail) ∧
    (∀ code detail, process_claude_csv cc2 file ≠ .httpError code detail) ∧
    openaiBatchCell ocall p = "Error generating response: " ++ m ∧
    claudeBatchCell cc1 p = "Error generating response: " ++ m ∧
    claudeBatchCell cc2 p = "Error generating response: " ++ em := by
  refine ⟨?_, ?_, ?_, ?_, ?_, ?_, ?_, ?_⟩ <;>
    simp [process_openai_csv, process_claude_csv, h, openaiBatchCell, claudeBatchCell,
      ho, h1, h2]

/-- Witness for C3 at a concrete valid upload and concrete failing
provider stubs. -/
theorem batch_failure_never_500_witness :
    process_openai_csv raiseOpenAICall okFile =
      .fileResponse "processed_openai.csv"
        (renderOutput (processAllOpenAI raiseOpenAICall ["A", "B"])) ∧
    process_claude_csv raiseClaudeCall okFile =
      .fileResponse "processed_claude.csv"
        (renderOutput (processAllClaude raiseClaudeCall ["A", "B"])) ∧
    (∀ code detail, process_openai_csv raiseOpenAICall okFile ≠ .httpError code detail) ∧
    (∀ code detail, process_claude_csv raiseClaudeCall okFile ≠ .httpError code detail) ∧
    (∀ code detail, process_claude_csv errBodyClaudeCall okFile ≠ .httpError code detail) ∧
    openaiBatchCell raiseOpenAICall "A" = "Error generating response: " ++ "connection reset" ∧
    claudeBatchCell raiseClaudeCall "A" = "Error generating response: " ++ "connection reset" ∧
    claudeBatchCell errBodyClaudeCall "A" = "Error generating response: " ++ "invalid api key" :=
  batch_failure_never_500 raiseOpenAICall raiseClaudeCall errBodyClaudeCall okFile
    ⟨["prompt"], ["A", "B"]⟩ "A" "connection reset" "invalid api key" none
    rfl rfl rfl rfl

/-- C4: when the provider call for prompt `pA` fails with message `mA` and
the call for `pB` succeeds with text `tB`, the batch output rows are
exactly `(pA, "Error generating response: " ++ mA)` then `(pB, tB)`, for
both providers. -/
theorem batch_error_cell_exact_format (ocall : OpenAICall) (ccall : ClaudeCall)
    (pA pB mA tB : String)
    (hA : ocall (openaiPayload pA) = .error mA)
    (hB : ocall (openaiPayload pB) = .ok tB)
    (hA2 : ccall (claudePayload pA) = .exn mA)
    (hB2 : ccall (claudePayload pB) = .body ⟨none, some tB⟩) :
    processAllOpenAI ocall [pA, pB] =
      [⟨pA, "Error generating response: " ++ mA⟩, ⟨pB, tB⟩] ∧
    processAllClaude ccall [pA, pB] =
      [⟨pA, "Error generating response: " ++ mA⟩, ⟨pB, tB⟩] := by
  constructor <;>
    simp [processAllOpenAI, processAllClaude, openaiBatchCell, claudeBatchCell,
      hA, hB, hA2, hB2]

/-- Witness for C4: the spec scenario itself, prompts `["A", "B"]` with
`A` failing with `timeout` and `B` succeeding with `ok`. -/
theorem batch_error_cell_exact_format_witness :
    processAllOpenAI failAOpenAICall ["A", "B"] =
      [⟨"A", "Error generating response: " ++ "timeout"⟩, ⟨"B", "ok"⟩] ∧
    processAllClaude failAClaudeCall ["A", "B"] =
      [⟨"A", "Error generating response: " ++ "timeout"⟩, ⟨"B", "ok"⟩] :=
  batch_error_cell_exact_format failAOpenAICall failAClaudeCall "A" "B" "timeout" "ok"
    rfl rfl rfl rfl

/-- C5: every provider failure on a single-prompt endpoint — an OpenAI
exception, a Claude exception, a Claude body carrying an error object with
a provider-supplied message, or a Claude body with no content — produces
an `HTTPException(500, …)` whose detail is the provider's fixed generic
string, a constant that does not depend on (and hence does not
incorporate) the underlying provider error text `m`/`em`: the
`HTTPException(500, response_data["error"]["message"])` raised on line 78
is itself caught by the `except Exception` handler and replaced. -/
theorem single_prompt_generic_500 (ocall : OpenAICall) (cc1 cc2 cc3 : ClaudeCall)
    (req : PromptRequest) (m em : String) (co : Option String)
    (h1 : ocall (openaiPayload req.prompt) = .error m)
    (h2 : cc1 (claudePayload req.prompt) = .exn m)
    (h3 : cc2 (claudePayload req.prompt) = .body ⟨some em, co⟩)
    (h4 : cc3 (claudePayload req.prompt) = .body ⟨none, none⟩) :
    process_openai_prompt ocall req = .httpError 500 "Error generating response from OpenAI" ∧
    process_claude_prompt cc1 req = .httpError 500 "Error generating response from Claude" ∧
    process_claude_prompt cc2 req = .httpError 500 "Error generating response from Claude" ∧
    process_claude_prompt cc3 req = .httpError 500 "Error generating response from Claude" := by
  refine ⟨?_, ?_, ?_, ?_⟩ <;>
    simp [process_openai_prompt, process_claude_prompt, h1, h2, h3, h4]

/-- Witness for C5 at a concrete request and concrete failing stubs, one
per failure shape. -/
theorem single_prompt_generic_500_witness :
    process_openai_prompt raiseOpenAICall ⟨"Hi"⟩ =
      .httpError 500 "Error generating response from OpenAI" ∧
    process_claude_prompt raiseClaudeCall ⟨"Hi"⟩ =
      .httpError 500 "Error generating response from Claude" ∧
    process_claude_prompt errBodyClaudeCall ⟨"Hi"⟩ =
      .httpError 500 "Error generating response from Claude" ∧
    process_claude_prompt noContentClaudeCall ⟨"Hi"⟩ =
      .httpError 500 "Error generating response from Claude" :=
  single_prompt_generic_500 raiseOpenAICall raiseClaudeCall errBodyClaudeCall
    noContentClaudeCall ⟨"Hi"⟩ "connection reset" "invalid api key" none
    rfl rfl rfl rfl

/-- C7: an upload whose declared content type is not `text/csv` is
rejected by both batch endpoints with a 400 regardless of its body, and a
well-typed upload that parses to a frame without a `prompt` column is also
rejected with a 400, for every provider behaviour. -/
theorem upload_validation_400 (ocall : OpenAICall) (ccall : ClaudeCall)
    (file1 file2 : UploadFile) (df : DataFrame)
    (hct : file1.content_type ≠ "text/csv")
    (hct2 : file2.content_type = "text/csv")
    (hp : file2.parsed = some df)
    (hcol : "prompt" ∉ df.columns) :
    process_openai_csv ocall file1 =
      .httpError 400 "Invalid file format. Please upload a CSV file." ∧
    process_claude_csv ccall file1 =
      .httpError 400 "Invalid file format. Please upload a CSV file." ∧
    process_openai_csv ocall file2 = .httpError 400 "Error reading the CSV file." ∧
    process_claude_csv ccall file2 = .httpError 400 "Error reading the CSV file." := by
  refine ⟨?_, ?_, ?_, ?_⟩ <;>
    simp [process_openai_csv, process_claude_csv, readUpload, hct, hct2, hp, hcol]

/-- Witness for C7 at a concrete mis-typed upload and a concrete upload
without a `prompt` column. -/
theorem upload_validation_400_witness :
    process_openai_csv anyOpenAICall badTypeFile =
      .httpError 400 "Invalid file format. Please upload a CSV file." ∧
    process_claude_csv anyClaudeCall badTypeFile =
      .httpError 400 "Invalid file format. Please upload a CSV file." ∧
    process_openai_csv anyOpenAICall missingColFile =
      .httpError 400 "Error reading the CSV file." ∧
    process_claude_csv anyClaudeCall missingColFile =
      .httpError 400 "Error reading the CSV file." :=
  upload_validation_400 anyOpenAICall anyClaudeCall badTypeFile missingColFile
    ⟨["question"], []⟩ (by decide) rfl rfl (by decide)

/-- C9: the batch pipeline is a deterministic function of the uploaded
prompts and the provider's responses: two runs over the same upload whose
provider oracles agree on every prompt of the batch produce identical
results, including byte-identical output artifacts. -/
theorem batch_deterministic (oc1 oc2 : OpenAICall) (cc1 cc2 : ClaudeCall)
    (file : UploadFile) (df : DataFrame)
    (h : readUpload file = .ok df)
    (ho : ∀ p ∈ df.promptValues, oc1 (openaiPayload p) = oc2 (openaiPayload p))
    (hc : ∀ p ∈ df.promptValues, cc1 (claudePayload p) = cc2 (claudePayload p)) :
    process_openai_csv oc1 file = process_openai_csv oc2 file ∧
    process_claude_csv cc1 file = process_claude_csv cc2 file := by
  have ho2 : processAllOpenAI oc1 df.promptValues = processAllOpenAI oc2 df.promptValues :=
    List.map_congr_left fun p hp => by
      simp [openaiBatchCell, ho p hp]
  have hc2 : processAllClaude cc1 df.promptValues = processAllClaude cc2 df.promptValues :=
    List.map_congr_left fun p hp => by
      simp [claudeBatchCell, hc p hp]
  constructor <;>
    simp [process_openai_csv, process_claude_csv, h, ho2, hc2]

/-- Witness for C9: two concrete runs with agreeing stubs on a concrete
valid upload. -/
theorem batch_deterministic_witness :
    process_openai_csv anyOpenAICall okFile = process_openai_csv anyOpenAICall okFile ∧
    process_claude_csv anyClaudeCall okFile = process_claude_csv anyClaudeCall okFile :=
  batch_deterministic anyOpenAICall anyOpenAICall anyClaudeCall anyClaudeCall okFile
    ⟨["prompt"], ["A", "B"]⟩ rfl (fun _ _ => rfl) (fun _ _ => rfl)

/-- C10: a parseable upload lacking the `prompt` column yields the generic
parse-error detail `Error reading the CSV file.`, not the missing-column
detail of line 95/131 — the missing-column `HTTPException` is raised
inside the `try` block, caught by `except Exception`, and replaced — so
the client cannot distinguish a schema error from an unparseable file,
which produces the very same response. -/
theorem missing_column_gets_generic_detail (ocall : OpenAICall) (ccall : ClaudeCall)
    (file1 file2 : UploadFile) (df : DataFrame)
    (hct : file1.content_type = "text/csv")
    (hp : file1.parsed = some df)
    (hcol : "prompt" ∉ df.columns)
    (hct2 : file2.content_type = "text/csv")
    (hp2 : file2.parsed = none) :
    readUpload file1 = .httpError 400 "Error reading the CSV file." ∧
    process_openai_csv ocall file1 = .httpError 400 "Error reading the CSV file." ∧
    process_claude_csv ccall file1 = .httpError 400 "Error reading the CSV file." ∧
    readUpload file1 ≠
      .httpError 400 "Missing \x27prompt\x27 column in the CSV file." ∧
    readUpload file2 = .httpError 400 "Error reading the CSV file." := by
  have h1 : readUpload file1 = .httpError 400 "Error reading the CSV file." := by
    simp [readUpload, hct, hp, hcol]
  refine ⟨h1, ?_, ?_, ?_, ?_⟩
  · simp [process_openai_csv, h1]
  · simp [process_claude_csv, h1]
  · rw [h1]
    intro hfalse
    simp at hfalse
  · simp [readUpload, hct2, hp2]

/-- Witness for C10 at a concrete upload without a `prompt` column and a
concrete unparseable upload. -/
theorem missing_column_gets_generic_detail_witness :
    readUpload missingColFile = .httpError 400 "Error reading the CSV file." ∧
    process_openai_csv anyOpenAICall missingColFile =
      .httpError 400 "Error reading the CSV file." ∧
    process_claude_csv anyClaudeCall missingColFile =
      .httpError 400 "Error reading the CSV file." ∧
    readUpload missingColFile ≠
      .httpError 400 "Missing \x27prompt\x27 column in the CSV file." ∧
    readUpload unparseableFile = .httpError 400 "Error reading the CSV file." :=
  missing_column_gets_generic_detail anyOpenAICall anyClaudeCall missingColFile
    unparseableFile ⟨["question"], []⟩ rfl rfl (by decide) rfl rfl

/-- A field that does not trigger minimal quoting contains no newline. -/
theorem count_nl_zero_of_not_quoting (s : String) (h : needsQuoting s = false) :
    s.data.count '\n' = 0 := by
  refine List.count_eq_zero.mpr fun hmem => ?_
  unfold needsQuoting at h
  rw [List.any_eq_false] at h
  exact h '\n' hmem (by decide)

/-- A field that does not trigger minimal quoting is emitted verbatim. -/
theorem csvField_of_not_quoting (s : String) (h : needsQuoting s = false) :
    csvField s = s := by
  simp [csvField, h]

/-- A record whose fields need no quoting contains exactly one newline:
its terminator. -/
theorem renderRow_count_nl (r : ResultRow)
    (h1 : needsQuoting r.prompt = false) (h2 : needsQuoting r.response = false) :
    (renderRow r).data.count '\n' = 1 := by
  rw [renderRow, csvField_of_not_quoting _ h1, csvField_of_not_quoting _ h2]
  rw [String.data_append, String.data_append, String.data_append]
  rw [List.count_append, List.count_append, List.count_append]
  rw [count_nl_zero_of_not_quoting _ h1, count_nl_zero_of_not_quoting _ h2]
  decide

/-- When no field needs quoting, the emitted records coincide with the
plain, escape-free records the specification describes. -/
theorem renderRows_eq_plain (table : List ResultRow)
    (hq : ∀ r ∈ table, needsQuoting r.prompt = false ∧ needsQuoting r.response = false) :
    renderRows table = specPlainRows table := by
  induction table with
  | nil => rfl
  | cons r rs ih =>
    have h := hq r (by simp)
    show renderRow r ++ renderRows rs =
      r.prompt ++ "," ++ r.response ++ "\n" ++ specPlainRows rs
    rw [ih fun x hx => hq x (by simp [hx])]
    rw [renderRow, csvField_of_not_quoting _ h.1, csvField_of_not_quoting _ h.2]

/-- When no field needs quoting, the emitted records hold exactly one
newline per table row. -/
theorem renderRows_count_nl (table : List ResultRow)
    (hq : ∀ r ∈ table, needsQuoting r.prompt = false ∧ needsQuoting r.response = false) :
    (renderRows table).data.count '\n' = table.length := by
  induction table with
  | nil => rfl
  | cons r rs ih =>
    have h := hq r (by simp)
    show (renderRow r ++ renderRows rs).data.count '\n' = rs.length + 1
    rw [String.data_append, List.count_append, renderRow_count_nl r h.1 h.2,
      ih fun x hx => hq x (by simp [hx])]
    omega

/-- C8 counterexample: the claim that values are written "as plain text
without added escaping" is false on the code.  For the table with the
single row `("a,b", "x")` the pandas writer's minimal quoting emits the
prompt field quoted, so the artifact differs from the plain rendering the
claim describes; independently, for the empty table `pd.DataFrame([])` has
no columns, so the artifact is a lone empty line without the
`prompt,response` header. -/
theorem renderOutput_plaintext_counterexample :
    renderOutput [⟨"a,b", "x"⟩] = "prompt,response\n\"a,b\",x\n" ∧
    renderOutput [⟨"a,b", "x"⟩] ≠ specPlainOutput [⟨"a,b", "x"⟩] ∧
    renderOutput [] ≠ specPlainOutput [] := by
  refine ⟨by decide, by decide, by decide⟩

/-- C8 amended: for every non-empty ResultTable all of whose values
contain no delimiter, quote, or line-terminator character, the batch
endpoints' DataFrame-to-CSV step produces the two-column artifact with
header line `prompt,response` and exactly one data record per ResultRow,
each written as plain unescaped text — one newline per record plus the
header's.  (Values containing such characters are minimally quoted, and
an empty table is written as a single empty header line.) -/
theorem renderOutput_amended (table : List ResultRow) (hne : table ≠ [])
    (hq : ∀ r ∈ table, needsQuoting r.prompt = false ∧ needsQuoting r.response = false) :
    renderOutput table = specPlainOutput table ∧
    (renderOutput table).data.count '\n' = table.length + 1 := by
  cases table with
  | nil => exact absurd rfl hne
  | cons r0 rs =>
    constructor
    · show "prompt,response\n" ++ renderRows (r0 :: rs) =
        "prompt,response\n" ++ specPlainRows (r0 :: rs)
      rw [renderRows_eq_plain _ hq]
    · show ("prompt,response\n" ++ renderRows (r0 :: rs)).data.count '\n' =
        (r0 :: rs).length + 1
      rw [String.data_append, List.count_append, renderRows_count_nl _ hq]
      simp
      omega

/-- Witness for the amended C8 at a concrete one-row table whose values
need no quoting. -/
theorem renderOutput_amended_witness :
    renderOutput [⟨"Hello", "ok"⟩] = specPlainOutput [⟨"Hello", "ok"⟩] ∧
    (renderOutput [⟨"Hello", "ok"⟩]).data.count '\n' = 2 :=
  renderOutput_amended [⟨"Hello", "ok"⟩] (by decide) (by decide)

end Main
